import Mathlib

/-!
Verification of the node/data-model layer of the full-moon lossless CST
library (src/full-moon/src/ast/types.rs, the Roblox typed-Lua extension).

The node family (TypeInfo, IndexedTypeInfo, TypeField, TypeFieldKey,
TypeAssertion, TypeDeclaration, GenericDeclaration, TypeSpecifier,
ExportedTypeDeclaration, CompoundOp, CompoundAssignment) is embedded as
Lean inductives/structures mirroring the Rust declarations field by field.
The external token layer (TokenReference, ContainedSpan, Punctuated) and
the parser are not part of the source file and are modelled from the spec.

Rendering (the derive_more Display implementations given by the
display(fmt = ...) attributes) is embedded as recursive render functions;
the derived PartialEq instances are embedded as recursive beq functions.
-/

/-- Modelled from the spec: the external token layer's token payload.
The spec describes tokens as carrying their text, with whitespace and
comments being trivia tokens; the source file constructs
TokenType.Identifier values and whitespace via TokenType.spaces.
Byte positions are omitted: no claim concerns span computation. -/
inductive TokenType where
  | Identifier (identifier : String)
  | Number (text : String)
  | StringLiteral (literal : String)
  | Symbol (symbol : String)
  | Whitespace (characters : String)
  | SingleLineComment (comment : String)
  deriving DecidableEq, Repr

/-- Modelled from the spec: the text a token type contributes to the
rendered source. -/
def TokenType.text : TokenType → String
  | .Identifier identifier => identifier
  | .Number t => t
  | .StringLiteral literal => literal
  | .Symbol symbol => symbol
  | .Whitespace characters => characters
  | .SingleLineComment comment => comment

/-- Modelled from the spec: TokenType::spaces(n), whitespace of n spaces. -/
def TokenType.spaces (count : Nat) : TokenType :=
  .Whitespace (String.mk (List.replicate count ' '))

/-- Modelled from the spec: a token of the external token layer.
Start/end positions are omitted: no claim concerns span computation. -/
structure Token where
  tokenType : TokenType
  deriving DecidableEq, Repr

/-- Modelled from the spec: Token::new. -/
def Token.new (tokenType : TokenType) : Token :=
  ⟨tokenType⟩

/-- Modelled from the spec: a token renders as its text. -/
def Token.render (t : Token) : String :=
  t.tokenType.text

/-- Modelled from the spec: a token together with its attached leading
and trailing trivia (whitespace/comment tokens). -/
structure TokenReference where
  leadingTrivia : List Token
  token : Token
  trailingTrivia : List Token
  deriving DecidableEq, Repr

/-- Modelled from the spec: TokenReference::new. -/
def TokenReference.new (leadingTrivia : List Token) (token : Token)
    (trailingTrivia : List Token) : TokenReference :=
  ⟨leadingTrivia, token, trailingTrivia⟩

/-- Concatenation of a list of rendered strings. -/
def joinStr : List String → String
  | [] => ""
  | s :: ss => s ++ joinStr ss

/-- Modelled from the spec: a token reference renders as every leading
trivia token's text, then the token's own text, then every trailing
trivia token's text. -/
def TokenReference.render (t : TokenReference) : String :=
  joinStr (t.leadingTrivia.map Token.render) ++ t.token.render
    ++ joinStr (t.trailingTrivia.map Token.render)

instance : Inhabited TokenReference :=
  ⟨⟨[], ⟨TokenType.Symbol ""⟩, []⟩⟩

/-- Modelled from the spec: the delimiter-pair wrapper of the token
layer, exposing its open and close tokens as a pair. -/
structure ContainedSpan where
  tokens : TokenReference × TokenReference
  deriving DecidableEq, Repr

/-- Modelled from the spec: ContainedSpan::new. -/
def ContainedSpan.new (start_token end_token : TokenReference) : ContainedSpan :=
  ⟨(start_token, end_token)⟩

/-- Modelled from the spec: the fixed symbol/keyword spellings accepted
by the token layer's TokenReference::symbol; the spec names the literal
constructor strings as valid tokens under the token layer's lexical
rules, alongside the dialect's punctuation and compound operators. -/
def validSymbolTexts : List String :=
  [":", "::", "=", "<", ">", ",", ".", "|", "&", "?", "->", "...",
   "type", "export", "+=", "-=", "*=", "/=", "%=", "^=", "..="]

/-- Modelled from the spec: TokenReference::symbol. Splits the literal
into leading whitespace (becoming leading trivia), a symbol text that
must be one of the dialect's fixed spellings, and trailing whitespace
(becoming trailing trivia); returns none otherwise. -/
def TokenReference.symbol (s : String) : Option TokenReference :=
  let cs := s.data
  let lead := cs.takeWhile (· = ' ')
  let rest := cs.dropWhile (· = ' ')
  let mid := (rest.reverse.dropWhile (· = ' ')).reverse
  let trail := rest.reverse.takeWhile (· = ' ')
  if String.mk mid ∈ validSymbolTexts then
    some ⟨(if lead.isEmpty then [] else [⟨.Whitespace (String.mk lead)⟩]),
      ⟨.Symbol (String.mk mid)⟩,
      (if trail.isEmpty then [] else [⟨.Whitespace (String.mk trail)⟩])⟩
  else
    none

/-- Modelled from the spec: an external expression node (Expression is
defined elsewhere in the crate); only its in-order token sequence
matters to this layer, so it is modelled as that sequence. -/
structure Expression where
  exprTokens : List TokenReference
  deriving DecidableEq, Repr

/-- Modelled from the spec: an expression renders as the concatenation
of its tokens' renderings. -/
def Expression.render (e : Expression) : String :=
  joinStr (e.exprTokens.map TokenReference.render)

/-- Modelled from the spec: an external assignable-target (Var) node;
modelled as its in-order token sequence, like Expression. -/
structure Var where
  varTokens : List TokenReference
  deriving DecidableEq, Repr

/-- Modelled from the spec: a Var renders as the concatenation of its
tokens' renderings. -/
def Var.render (v : Var) : String :=
  joinStr (v.varTokens.map TokenReference.render)

mutual
/-- Any type, such as string, boolean?, number | boolean, etc.
Mirrors enum TypeInfo of the source, variant by variant and field by
field; Box indirection is dropped (Lean inductives are heap-allocated)
and Punctuated sequences of recursive nodes are the specialized
PunctTypeInfo/PunctTypeField lists below. -/
inductive TypeInfo where
  | Array (braces : ContainedSpan) (type_info : TypeInfo)
  | Basic (token : TokenReference)
  | Callback (parentheses : ContainedSpan) (arguments : PunctTypeInfo)
      (arrow : TokenReference) (return_type : TypeInfo)
  | Generic (base : TokenReference) (arrows : ContainedSpan)
      (generics : PunctTypeInfo)
  | Intersection (left : TypeInfo) (ampersand : TokenReference) (right : TypeInfo)
  | Module (module : TokenReference) (punctuation : TokenReference)
      (type_info : IndexedTypeInfo)
  | Optional (base : TypeInfo) (question_mark : TokenReference)
  | Table (braces : ContainedSpan) (fields : PunctTypeField)
  | Typeof (typeof_token : TokenReference) (parentheses : ContainedSpan)
      (inner : Expression)
  | Tuple (parentheses : ContainedSpan) (types : PunctTypeInfo)
  | Union (left : TypeInfo) (pipe : TokenReference) (right : TypeInfo)
  | Variadic (ellipse : TokenReference) (type_info : TypeInfo)

/-- A subset of TypeInfo consisting of items that can only be used as an
index, such as Foo and Foo-with-generics. Mirrors enum IndexedTypeInfo
of the source: exactly the two variants Basic and Generic. -/
inductive IndexedTypeInfo where
  | Basic (token : TokenReference)
  | Generic (base : TokenReference) (arrows : ContainedSpan)
      (generics : PunctTypeInfo)

/-- A type field used within table types: key, colon, value.
Mirrors struct TypeField of the source. -/
inductive TypeField where
  | mk (key : TypeFieldKey) (colon : TokenReference) (value : TypeInfo)

/-- A key in a TypeField: a name or an index signature.
Mirrors enum TypeFieldKey of the source. -/
inductive TypeFieldKey where
  | Name (token : TokenReference)
  | IndexSignature (brackets : ContainedSpan) (inner : TypeInfo)

/-- Modelled from the spec: the token layer's punctuated sequence
(ordered items with optional separator tokens) specialized to TypeInfo
items: each entry is an item with an optional following separator. -/
inductive PunctTypeInfo where
  | nil
  | cons (item : TypeInfo) (punctuation : Option TokenReference)
      (rest : PunctTypeInfo)

/-- Modelled from the spec: the token layer's punctuated sequence
specialized to TypeField items. -/
inductive PunctTypeField where
  | nil
  | cons (item : TypeField) (punctuation : Option TokenReference)
      (rest : PunctTypeField)
end

/-- Modelled from the spec: rendering of an optional separator token in
a punctuated pair: nothing when absent. -/
def optRender : Option TokenReference → String
  | none => ""
  | some t => t.render

mutual
/-- Rendering of TypeInfo: the source's display(fmt) attribute per
variant, concatenating sub-renderings in the attribute's order. -/
def TypeInfo.render : TypeInfo → String
  | .Array braces type_info =>
      braces.tokens.1.render ++ TypeInfo.render type_info ++ braces.tokens.2.render
  | .Basic token => token.render
  | .Callback parentheses arguments arrow return_type =>
      parentheses.tokens.1.render ++ PunctTypeInfo.render arguments
        ++ parentheses.tokens.2.render ++ arrow.render
        ++ TypeInfo.render return_type
  | .Generic base arrows generics =>
      base.render ++ arrows.tokens.1.render ++ PunctTypeInfo.render generics
        ++ arrows.tokens.2.render
  | .Intersection left ampersand right =>
      TypeInfo.render left ++ ampersand.render ++ TypeInfo.render right
  | .Module module punctuation type_info =>
      module.render ++ punctuation.render ++ IndexedTypeInfo.render type_info
  | .Optional base question_mark =>
      TypeInfo.render base ++ question_mark.render
  | .Table braces fields =>
      braces.tokens.1.render ++ PunctTypeField.render fields
        ++ braces.tokens.2.render
  | .Typeof typeof_token parentheses inner =>
      typeof_token.render ++ parentheses.tokens.1.render ++ inner.render
        ++ parentheses.tokens.2.render
  | .Tuple parentheses types =>
      parentheses.tokens.1.render ++ PunctTypeInfo.render types
        ++ parentheses.tokens.2.render
  | .Union left pipe right =>
      TypeInfo.render left ++ pipe.render ++ TypeInfo.render right
  | .Variadic ellipse type_info =>
      ellipse.render ++ TypeInfo.render type_info

/-- Rendering of IndexedTypeInfo per the source's display attributes. -/
def IndexedTypeInfo.render : IndexedTypeInfo → String
  | .Basic token => token.render
  | .Generic base arrows generics =>
      base.render ++ arrows.tokens.1.render ++ PunctTypeInfo.render generics
        ++ arrows.tokens.2.render

/-- Rendering of TypeField: key, colon, value. -/
def TypeField.render : TypeField → String
  | .mk key colon value =>
      TypeFieldKey.render key ++ colon.render ++ TypeInfo.render value

/-- Rendering of TypeFieldKey per the source's display attributes. -/
def TypeFieldKey.render : TypeFieldKey → String
  | .Name token => token.render
  | .IndexSignature brackets inner =>
      brackets.tokens.1.render ++ TypeInfo.render inner
        ++ brackets.tokens.2.render

/-- Modelled from the spec: a punctuated sequence renders each item
followed by its separator token when present, in order. -/
def PunctTypeInfo.render : PunctTypeInfo → String
  | .nil => ""
  | .cons item punctuation rest =>
      TypeInfo.render item ++ optRender punctuation
        ++ PunctTypeInfo.render rest

/-- Modelled from the spec: punctuated TypeField sequence rendering. -/
def PunctTypeField.render : PunctTypeField → String
  | .nil => ""
  | .cons item punctuation rest =>
      TypeField.render item ++ optRender punctuation
        ++ PunctTypeField.render rest
end

/-- The generics used in a TypeDeclaration: arrows delimiter pair plus a
punctuated list of generic parameter name tokens. Mirrors struct
GenericDeclaration; the punctuated token list is a list of
(item, optional separator) pairs, as in the token layer. -/
structure GenericDeclaration where
  arrows : ContainedSpan
  generics : List (TokenReference × Option TokenReference)
  deriving DecidableEq, Repr

/-- Modelled from the spec: rendering of a punctuated sequence of plain
tokens: each item then its separator when present, in order. -/
def punctTokensRender : List (TokenReference × Option TokenReference) → String
  | [] => ""
  | (item, punctuation) :: rest =>
      item.render ++ optRender punctuation ++ punctTokensRender rest

/-- Rendering of GenericDeclaration: open arrow, generics, close arrow. -/
def GenericDeclaration.render (g : GenericDeclaration) : String :=
  g.arrows.tokens.1.render ++ punctTokensRender g.generics
    ++ g.arrows.tokens.2.render

/-- GenericDeclaration::new: synthesized arrow tokens and an empty
punctuated list (the source's Punctuated::new()); the source's unwrap of
the synthesized tokens is modelled as getD default (claim C6 shows the
default branch is unreachable). -/
def GenericDeclaration.new : GenericDeclaration :=
  ⟨ContainedSpan.new ((TokenReference.symbol "<").getD default)
    ((TokenReference.symbol ">").getD default), []⟩

/-- GenericDeclaration::with_arrows. -/
def GenericDeclaration.with_arrows (g : GenericDeclaration)
    (arrows : ContainedSpan) : GenericDeclaration :=
  { g with arrows }

/-- GenericDeclaration::with_generics. -/
def GenericDeclaration.with_generics (g : GenericDeclaration)
    (generics : List (TokenReference × Option TokenReference)) :
    GenericDeclaration :=
  { g with generics }

/-- A type assertion using a double-colon, such as ":: number".
Mirrors struct TypeAssertion. -/
structure TypeAssertion where
  assertion_op : TokenReference
  cast_to : TypeInfo

/-- Rendering of TypeAssertion: operator then cast-to type. -/
def TypeAssertion.render (t : TypeAssertion) : String :=
  t.assertion_op.render ++ t.cast_to.render

/-- TypeAssertion::new. -/
def TypeAssertion.new (cast_to : TypeInfo) : TypeAssertion :=
  ⟨(TokenReference.symbol "::").getD default, cast_to⟩

/-- TypeAssertion::with_assertion_op. -/
def TypeAssertion.with_assertion_op (t : TypeAssertion)
    (assertion_op : TokenReference) : TypeAssertion :=
  { t with assertion_op }

/-- TypeAssertion::with_cast_to. -/
def TypeAssertion.with_cast_to (t : TypeAssertion) (cast_to : TypeInfo) :
    TypeAssertion :=
  { t with cast_to }

/-- A type declaration, such as "type Meters = number".
Mirrors struct TypeDeclaration field by field. -/
structure TypeDeclaration where
  type_token : TokenReference
  base : TokenReference
  generics : Option GenericDeclaration
  equal_token : TokenReference
  declare_as : TypeInfo

/-- The source's util::display_option: an absent optional child renders
as the empty string. -/
def display_option : Option GenericDeclaration → String
  | none => ""
  | some g => g.render

/-- Rendering of TypeDeclaration: type token, name, optional generics,
equal token, definition. -/
def TypeDeclaration.render (d : TypeDeclaration) : String :=
  d.type_token.render ++ d.base.render ++ display_option d.generics
    ++ d.equal_token.render ++ d.declare_as.render

/-- TypeDeclaration::new. -/
def TypeDeclaration.new (type_name : TokenReference)
    (type_definition : TypeInfo) : TypeDeclaration :=
  ⟨(TokenReference.symbol "type ").getD default, type_name, none,
    (TokenReference.symbol " = ").getD default, type_definition⟩

/-- TypeDeclaration::type_name accessor (the base field). -/
def TypeDeclaration.type_name (d : TypeDeclaration) : TokenReference :=
  d.base

/-- TypeDeclaration::type_definition accessor (the declare_as field). -/
def TypeDeclaration.type_definition (d : TypeDeclaration) : TypeInfo :=
  d.declare_as

/-- TypeDeclaration::with_type_token. -/
def TypeDeclaration.with_type_token (d : TypeDeclaration)
    (type_token : TokenReference) : TypeDeclaration :=
  { d with type_token }

/-- TypeDeclaration::with_type_name. -/
def TypeDeclaration.with_type_name (d : TypeDeclaration)
    (type_name : TokenReference) : TypeDeclaration :=
  { d with base := type_name }

/-- TypeDeclaration::with_generics. -/
def TypeDeclaration.with_generics (d : TypeDeclaration)
    (generics : Option GenericDeclaration) : TypeDeclaration :=
  { d with generics }

/-- TypeDeclaration::with_equal_token. -/
def TypeDeclaration.with_equal_token (d : TypeDeclaration)
    (equal_token : TokenReference) : TypeDeclaration :=
  { d with equal_token }

/-- TypeDeclaration::with_type_definition. -/
def TypeDeclaration.with_type_definition (d : TypeDeclaration)
    (type_definition : TypeInfo) : TypeDeclaration :=
  { d with declare_as := type_definition }

/-- A type specifier, the ": number" in "local foo: number".
Mirrors struct TypeSpecifier. -/
structure TypeSpecifier where
  punctuation : TokenReference
  type_info : TypeInfo

/-- Rendering of TypeSpecifier: punctuation then type. -/
def TypeSpecifier.render (t : TypeSpecifier) : String :=
  t.punctuation.render ++ t.type_info.render

/-- TypeSpecifier::new. -/
def TypeSpecifier.new (type_info : TypeInfo) : TypeSpecifier :=
  ⟨(TokenReference.symbol ": ").getD default, type_info⟩

/-- TypeSpecifier::with_punctuation. -/
def TypeSpecifier.with_punctuation (t : TypeSpecifier)
    (punctuation : TokenReference) : TypeSpecifier :=
  { t with punctuation }

/-- TypeSpecifier::with_type_info. -/
def TypeSpecifier.with_type_info (t : TypeSpecifier) (type_info : TypeInfo) :
    TypeSpecifier :=
  { t with type_info }

/-- An exported type declaration, such as "export type Meters = number".
Mirrors struct ExportedTypeDeclaration. -/
structure ExportedTypeDeclaration where
  export_token : TokenReference
  type_declaration : TypeDeclaration

/-- Rendering of ExportedTypeDeclaration: export token then declaration. -/
def ExportedTypeDeclaration.render (e : ExportedTypeDeclaration) : String :=
  e.export_token.render ++ e.type_declaration.render

/-- ExportedTypeDeclaration::new: synthesizes the export token as an
identifier with no leading trivia and one space of trailing trivia,
exactly as the source does with TokenReference::new. -/
def ExportedTypeDeclaration.new (type_declaration : TypeDeclaration) :
    ExportedTypeDeclaration :=
  ⟨TokenReference.new [] (Token.new (TokenType.Identifier "export"))
    [Token.new (TokenType.spaces 1)], type_declaration⟩

/-- ExportedTypeDeclaration::with_export_token. -/
def ExportedTypeDeclaration.with_export_token (e : ExportedTypeDeclaration)
    (export_token : TokenReference) : ExportedTypeDeclaration :=
  { e with export_token }

/-- ExportedTypeDeclaration::with_type_declaration. -/
def ExportedTypeDeclaration.with_type_declaration (e : ExportedTypeDeclaration)
    (type_declaration : TypeDeclaration) : ExportedTypeDeclaration :=
  { e with type_declaration }

/-- Compound operators, such as "+=" in "x += y". Mirrors the make_op!
expansion of CompoundOp: one variant per operator; modelled from the
spec for the payload, each variant carrying its operator token. -/
inductive CompoundOp where
  | PlusEqual (token : TokenReference)
  | MinusEqual (token : TokenReference)
  | StarEqual (token : TokenReference)
  | SlashEqual (token : TokenReference)
  | PercentEqual (token : TokenReference)
  | CaretEqual (token : TokenReference)
  | TwoDotsEqual (token : TokenReference)
  deriving DecidableEq, Repr

/-- Rendering of CompoundOp: the operator token's rendering. -/
def CompoundOp.render : CompoundOp → String
  | .PlusEqual token => token.render
  | .MinusEqual token => token.render
  | .StarEqual token => token.render
  | .SlashEqual token => token.render
  | .PercentEqual token => token.render
  | .CaretEqual token => token.render
  | .TwoDotsEqual token => token.render

/-- A compound assignment statement, such as "x += 1".
Mirrors struct CompoundAssignment: exactly the three fields lhs,
compound_operator, rhs. -/
structure CompoundAssignment where
  lhs : Var
  compound_operator : CompoundOp
  rhs : Expression

/-- Rendering of CompoundAssignment: lhs, operator, rhs. -/
def CompoundAssignment.render (c : CompoundAssignment) : String :=
  c.lhs.render ++ c.compound_operator.render ++ c.rhs.render

/-- CompoundAssignment::new. -/
def CompoundAssignment.new (lhs : Var) (compound_operator : CompoundOp)
    (rhs : Expression) : CompoundAssignment :=
  ⟨lhs, compound_operator, rhs⟩

/-- CompoundAssignment::with_lhs. -/
def CompoundAssignment.with_lhs (c : CompoundAssignment) (lhs : Var) :
    CompoundAssignment :=
  { c with lhs }

/-- CompoundAssignment::with_compound_operator. -/
def CompoundAssignment.with_compound_operator (c : CompoundAssignment)
    (compound_operator : CompoundOp) : CompoundAssignment :=
  { c with compound_operator }

/-- CompoundAssignment::with_rhs. -/
def CompoundAssignment.with_rhs (c : CompoundAssignment) (rhs : Expression) :
    CompoundAssignment :=
  { c with rhs }

/-- TypeField::new: fills in the canonical default colon token,
synthesized from the literal ": "; unwrap modelled as getD default
(claim C6 shows the default branch is unreachable). -/
def TypeField.new (key : TypeFieldKey) (value : TypeInfo) : TypeField :=
  .mk key ((TokenReference.symbol ": ").getD default) value

/-- TypeField::key accessor. -/
def TypeField.key : TypeField → TypeFieldKey
  | .mk key _ _ => key

/-- TypeField::colon_token accessor. -/
def TypeField.colon_token : TypeField → TokenReference
  | .mk _ colon _ => colon

/-- TypeField::value accessor. -/
def TypeField.value : TypeField → TypeInfo
  | .mk _ _ value => value

/-- TypeField::with_key. -/
def TypeField.with_key : TypeField → TypeFieldKey → TypeField
  | .mk _ colon value, key => .mk key colon value

/-- TypeField::with_colon_token. -/
def TypeField.with_colon_token : TypeField → TokenReference → TypeField
  | .mk key _ value, colon_token => .mk key colon_token value

/-- TypeField::with_value. -/
def TypeField.with_value : TypeField → TypeInfo → TypeField
  | .mk key colon _, value => .mk key colon value

/-- TypeAssertion::assertion_op accessor. -/
def TypeAssertion.assertion_op_of (t : TypeAssertion) : TokenReference :=
  t.assertion_op

/-- Concatenation of the full rendered texts of a token sequence. -/
def joinTokens : List TokenReference → String
  | [] => ""
  | t :: ts => t.render ++ joinTokens ts

/-- Modelled from the spec: the token sequence contributed by an
optional separator token. -/
def optTokens : Option TokenReference → List TokenReference
  | none => []
  | some t => [t]

mutual
/-- The in-order sequence of tokens of a TypeInfo tree, in the same
order the display attributes visit them. -/
def TypeInfo.tokens : TypeInfo → List TokenReference
  | .Array braces type_info =>
      [braces.tokens.1] ++ TypeInfo.tokens type_info ++ [braces.tokens.2]
  | .Basic token => [token]
  | .Callback parentheses arguments arrow return_type =>
      [parentheses.tokens.1] ++ PunctTypeInfo.tokens arguments
        ++ [parentheses.tokens.2] ++ [arrow] ++ TypeInfo.tokens return_type
  | .Generic base arrows generics =>
      [base] ++ [arrows.tokens.1] ++ PunctTypeInfo.tokens generics
        ++ [arrows.tokens.2]
  | .Intersection left ampersand right =>
      TypeInfo.tokens left ++ [ampersand] ++ TypeInfo.tokens right
  | .Module module punctuation type_info =>
      [module] ++ [punctuation] ++ IndexedTypeInfo.tokens type_info
  | .Optional base question_mark =>
      TypeInfo.tokens base ++ [question_mark]
  | .Table braces fields =>
      [braces.tokens.1] ++ PunctTypeField.tokens fields ++ [braces.tokens.2]
  | .Typeof typeof_token parentheses inner =>
      [typeof_token] ++ [parentheses.tokens.1] ++ inner.exprTokens
        ++ [parentheses.tokens.2]
  | .Tuple parentheses types =>
      [parentheses.tokens.1] ++ PunctTypeInfo.tokens types
        ++ [parentheses.tokens.2]
  | .Union left pipe right =>
      TypeInfo.tokens left ++ [pipe] ++ TypeInfo.tokens right
  | .Variadic ellipse type_info =>
      [ellipse] ++ TypeInfo.tokens type_info

/-- The in-order token sequence of an IndexedTypeInfo. -/
def IndexedTypeInfo.tokens : IndexedTypeInfo → List TokenReference
  | .Basic token => [token]
  | .Generic base arrows generics =>
      [base] ++ [arrows.tokens.1] ++ PunctTypeInfo.tokens generics
        ++ [arrows.tokens.2]

/-- The in-order token sequence of a TypeField. -/
def TypeField.tokens : TypeField → List TokenReference
  | .mk key colon value =>
      TypeFieldKey.tokens key ++ [colon] ++ TypeInfo.tokens value

/-- The in-order token sequence of a TypeFieldKey. -/
def TypeFieldKey.tokens : TypeFieldKey → List TokenReference
  | .Name token => [token]
  | .IndexSignature brackets inner =>
      [brackets.tokens.1] ++ TypeInfo.tokens inner ++ [brackets.tokens.2]

/-- The in-order token sequence of a punctuated TypeInfo sequence. -/
def PunctTypeInfo.tokens : PunctTypeInfo → List TokenReference
  | .nil => []
  | .cons item punctuation rest =>
      TypeInfo.tokens item ++ optTokens punctuation
        ++ PunctTypeInfo.tokens rest

/-- The in-order token sequence of a punctuated TypeField sequence. -/
def PunctTypeField.tokens : PunctTypeField → List TokenReference
  | .nil => []
  | .cons item punctuation rest =>
      TypeField.tokens item ++ optTokens punctuation
        ++ PunctTypeField.tokens rest
end

/-- The in-order token sequence of a punctuated token sequence. -/
def punctTokensTokens : List (TokenReference × Option TokenReference) →
    List TokenReference
  | [] => []
  | (item, punctuation) :: rest =>
      [item] ++ optTokens punctuation ++ punctTokensTokens rest

/-- The in-order token sequence of a TypeAssertion. -/
def TypeAssertion.tokens (t : TypeAssertion) : List TokenReference :=
  [t.assertion_op] ++ t.cast_to.tokens

/-- The in-order token sequence of a GenericDeclaration. -/
def GenericDeclaration.tokens (g : GenericDeclaration) : List TokenReference :=
  [g.arrows.tokens.1] ++ punctTokensTokens g.generics ++ [g.arrows.tokens.2]

/-- The token sequence of an optional GenericDeclaration child. -/
def optGenericTokens : Option GenericDeclaration → List TokenReference
  | none => []
  | some g => g.tokens

/-- The in-order token sequence of a TypeDeclaration. -/
def TypeDeclaration.tokens (d : TypeDeclaration) : List TokenReference :=
  [d.type_token] ++ [d.base] ++ optGenericTokens d.generics
    ++ [d.equal_token] ++ d.declare_as.tokens

/-- The in-order token sequence of a TypeSpecifier. -/
def TypeSpecifier.tokens (t : TypeSpecifier) : List TokenReference :=
  [t.punctuation] ++ t.type_info.tokens

/-- The in-order token sequence of an ExportedTypeDeclaration. -/
def ExportedTypeDeclaration.tokens (e : ExportedTypeDeclaration) :
    List TokenReference :=
  [e.export_token] ++ e.type_declaration.tokens

/-- The operator token of a CompoundOp. -/
def CompoundOp.tokens : CompoundOp → List TokenReference
  | .PlusEqual token => [token]
  | .MinusEqual token => [token]
  | .StarEqual token => [token]
  | .SlashEqual token => [token]
  | .PercentEqual token => [token]
  | .CaretEqual token => [token]
  | .TwoDotsEqual token => [token]

/-- The in-order token sequence of a CompoundAssignment. -/
def CompoundAssignment.tokens (c : CompoundAssignment) : List TokenReference :=
  c.lhs.varTokens ++ c.compound_operator.tokens ++ c.rhs.exprTokens

mutual
/-- The derived PartialEq of TypeInfo: variant tags must match and every
field must be equal, fields of external token-layer types compared by
their own (structural) equality and recursive children compared
recursively. -/
def TypeInfo.beq : TypeInfo → TypeInfo → Bool
  | .Array b1 t1, .Array b2 t2 =>
      decide (b1 = b2) && TypeInfo.beq t1 t2
  | .Basic t1, .Basic t2 => decide (t1 = t2)
  | .Callback p1 a1 ar1 r1, .Callback p2 a2 ar2 r2 =>
      decide (p1 = p2) && PunctTypeInfo.beq a1 a2 && decide (ar1 = ar2)
        && TypeInfo.beq r1 r2
  | .Generic b1 a1 g1, .Generic b2 a2 g2 =>
      decide (b1 = b2) && decide (a1 = a2) && PunctTypeInfo.beq g1 g2
  | .Intersection l1 a1 r1, .Intersection l2 a2 r2 =>
      TypeInfo.beq l1 l2 && decide (a1 = a2) && TypeInfo.beq r1 r2
  | .Module m1 p1 t1, .Module m2 p2 t2 =>
      decide (m1 = m2) && decide (p1 = p2) && IndexedTypeInfo.beq t1 t2
  | .Optional b1 q1, .Optional b2 q2 =>
      TypeInfo.beq b1 b2 && decide (q1 = q2)
  | .Table b1 f1, .Table b2 f2 =>
      decide (b1 = b2) && PunctTypeField.beq f1 f2
  | .Typeof t1 p1 i1, .Typeof t2 p2 i2 =>
      decide (t1 = t2) && decide (p1 = p2) && decide (i1 = i2)
  | .Tuple p1 t1, .Tuple p2 t2 =>
      decide (p1 = p2) && PunctTypeInfo.beq t1 t2
  | .Union l1 p1 r1, .Union l2 p2 r2 =>
      TypeInfo.beq l1 l2 && decide (p1 = p2) && TypeInfo.beq r1 r2
  | .Variadic e1 t1, .Variadic e2 t2 =>
      decide (e1 = e2) && TypeInfo.beq t1 t2
  | _, _ => false

/-- The derived PartialEq of IndexedTypeInfo. -/
def IndexedTypeInfo.beq : IndexedTypeInfo → IndexedTypeInfo → Bool
  | .Basic t1, .Basic t2 => decide (t1 = t2)
  | .Generic b1 a1 g1, .Generic b2 a2 g2 =>
      decide (b1 = b2) && decide (a1 = a2) && PunctTypeInfo.beq g1 g2
  | _, _ => false

/-- The derived PartialEq of TypeField: key, colon and value all equal. -/
def TypeField.beq : TypeField → TypeField → Bool
  | .mk k1 c1 v1, .mk k2 c2 v2 =>
      TypeFieldKey.beq k1 k2 && decide (c1 = c2) && TypeInfo.beq v1 v2

/-- The derived PartialEq of TypeFieldKey. -/
def TypeFieldKey.beq : TypeFieldKey → TypeFieldKey → Bool
  | .Name t1, .Name t2 => decide (t1 = t2)
  | .IndexSignature b1 i1, .IndexSignature b2 i2 =>
      decide (b1 = b2) && TypeInfo.beq i1 i2
  | _, _ => false

/-- The PartialEq of the punctuated TypeInfo sequence: pointwise. -/
def PunctTypeInfo.beq : PunctTypeInfo → PunctTypeInfo → Bool
  | .nil, .nil => true
  | .cons i1 p1 r1, .cons i2 p2 r2 =>
      TypeInfo.beq i1 i2 && decide (p1 = p2) && PunctTypeInfo.beq r1 r2
  | _, _ => false

/-- The PartialEq of the punctuated TypeField sequence: pointwise. -/
def PunctTypeField.beq : PunctTypeField → PunctTypeField → Bool
  | .nil, .nil => true
  | .cons i1 p1 r1, .cons i2 p2 r2 =>
      TypeField.beq i1 i2 && decide (p1 = p2) && PunctTypeField.beq r1 r2
  | _, _ => false
end

/-- The derived PartialEq of TypeAssertion. -/
def TypeAssertion.beq (a b : TypeAssertion) : Bool :=
  decide (a.assertion_op = b.assertion_op) && TypeInfo.beq a.cast_to b.cast_to

/-- The derived PartialEq of GenericDeclaration (token-layer fields
only, compared structurally). -/
def GenericDeclaration.beq (a b : GenericDeclaration) : Bool :=
  decide (a.arrows = b.arrows) && decide (a.generics = b.generics)

/-- The derived PartialEq of the optional generics field. -/
def optGenericBeq : Option GenericDeclaration → Option GenericDeclaration → Bool
  | none, none => true
  | some a, some b => GenericDeclaration.beq a b
  | _, _ => false

/-- The derived PartialEq of TypeDeclaration. -/
def TypeDeclaration.beq (a b : TypeDeclaration) : Bool :=
  decide (a.type_token = b.type_token) && decide (a.base = b.base)
    && optGenericBeq a.generics b.generics
    && decide (a.equal_token = b.equal_token)
    && TypeInfo.beq a.declare_as b.declare_as

/-- The derived PartialEq of TypeSpecifier. -/
def TypeSpecifier.beq (a b : TypeSpecifier) : Bool :=
  decide (a.punctuation = b.punctuation) && TypeInfo.beq a.type_info b.type_info

/-- The derived PartialEq of ExportedTypeDeclaration. -/
def ExportedTypeDeclaration.beq (a b : ExportedTypeDeclaration) : Bool :=
  decide (a.export_token = b.export_token)
    && TypeDeclaration.beq a.type_declaration b.type_declaration

/-- The derived PartialEq of CompoundOp: same operator variant with
equal tokens. -/
def CompoundOp.beq : CompoundOp → CompoundOp → Bool
  | .PlusEqual t1, .PlusEqual t2 => decide (t1 = t2)
  | .MinusEqual t1, .MinusEqual t2 => decide (t1 = t2)
  | .StarEqual t1, .StarEqual t2 => decide (t1 = t2)
  | .SlashEqual t1, .SlashEqual t2 => decide (t1 = t2)
  | .PercentEqual t1, .PercentEqual t2 => decide (t1 = t2)
  | .CaretEqual t1, .CaretEqual t2 => decide (t1 = t2)
  | .TwoDotsEqual t1, .TwoDotsEqual t2 => decide (t1 = t2)
  | _, _ => false

/-- The derived PartialEq of CompoundAssignment. -/
def CompoundAssignment.beq (a b : CompoundAssignment) : Bool :=
  decide (a.lhs = b.lhs) && CompoundOp.beq a.compound_operator b.compound_operator
    && decide (a.rhs = b.rhs)

theorem joinTokens_append (l1 l2 : List TokenReference) :
    joinTokens (l1 ++ l2) = joinTokens l1 ++ joinTokens l2 := by
  induction l1 with
  | nil => simp [joinTokens, String.empty_append]
  | cons t ts ih => simp [joinTokens, ih, String.append_assoc]

theorem joinTokens_eq_joinStr (l : List TokenReference) :
    joinTokens l = joinStr (l.map TokenReference.render) := by
  induction l with
  | nil => rfl
  | cons t ts ih => simp [joinTokens, joinStr, ih]

theorem expression_render_eq_tokens (e : Expression) :
    e.render = joinTokens e.exprTokens := by
  rw [Expression.render, joinTokens_eq_joinStr]

theorem var_render_eq_tokens (v : Var) :
    v.render = joinTokens v.varTokens := by
  rw [Var.render, joinTokens_eq_joinStr]

theorem joinTokens_optTokens (p : Option TokenReference) :
    joinTokens (optTokens p) = optRender p := by
  cases p <;> simp [optTokens, optRender, joinTokens, String.append_empty]

mutual
/-- Rendering concatenates exactly the full texts of the in-order token
sequence: the core of the lossless round-trip law for TypeInfo. -/
theorem typeInfo_render_eq_tokens :
    ∀ t : TypeInfo, TypeInfo.render t = joinTokens (TypeInfo.tokens t)
  | .Array braces type_info => by
      simp [TypeInfo.render, TypeInfo.tokens, joinTokens, joinTokens_append,
        typeInfo_render_eq_tokens type_info, String.append_assoc,
        String.append_empty]
  | .Basic token => by
      simp [TypeInfo.render, TypeInfo.tokens, joinTokens, String.append_empty]
  | .Callback parentheses arguments arrow return_type => by
      simp [TypeInfo.render, TypeInfo.tokens, joinTokens, joinTokens_append,
        punctTypeInfo_render_eq_tokens arguments,
        typeInfo_render_eq_tokens return_type, String.append_assoc,
        String.append_empty]
  | .Generic base arrows generics => by
      simp [TypeInfo.render, TypeInfo.tokens, joinTokens, joinTokens_append,
        punctTypeInfo_render_eq_tokens generics, String.append_assoc,
        String.append_empty]
  | .Intersection left ampersand right => by
      simp [TypeInfo.render, TypeInfo.tokens, joinTokens, joinTokens_append,
        typeInfo_render_eq_tokens left, typeInfo_render_eq_tokens right,
        String.append_assoc, String.append_empty]
  | .Module module punctuation type_info => by
      simp [TypeInfo.render, TypeInfo.tokens, joinTokens, joinTokens_append,
        indexedTypeInfo_render_eq_tokens type_info, String.append_assoc,
        String.append_empty]
  | .Optional base question_mark => by
      simp [TypeInfo.render, TypeInfo.tokens, joinTokens, joinTokens_append,
        typeInfo_render_eq_tokens base, String.append_assoc,
        String.append_empty]
  | .Table braces fields => by
      simp [TypeInfo.render, TypeInfo.tokens, joinTokens, joinTokens_append,
        punctTypeField_render_eq_tokens fields, String.append_assoc,
        String.append_empty]
  | .Typeof typeof_token parentheses inner => by
      simp [TypeInfo.render, TypeInfo.tokens, joinTokens, joinTokens_append,
        expression_render_eq_tokens inner, String.append_assoc,
        String.append_empty]
  | .Tuple parentheses types => by
      simp [TypeInfo.render, TypeInfo.tokens, joinTokens, joinTokens_append,
        punctTypeInfo_render_eq_tokens types, String.append_assoc,
        String.append_empty]
  | .Union left pipe right => by
      simp [TypeInfo.render, TypeInfo.tokens, joinTokens, joinTokens_append,
        typeInfo_render_eq_tokens left, typeInfo_render_eq_tokens right,
        String.append_assoc, String.append_empty]
  | .Variadic ellipse type_info => by
      simp [TypeInfo.render, TypeInfo.tokens, joinTokens, joinTokens_append,
        typeInfo_render_eq_tokens type_info, String.append_assoc,
        String.append_empty]

/-- Rendering equals in-order token concatenation for IndexedTypeInfo. -/
theorem indexedTypeInfo_render_eq_tokens :
    ∀ t : IndexedTypeInfo,
      IndexedTypeInfo.render t = joinTokens (IndexedTypeInfo.tokens t)
  | .Basic token => by
      simp [IndexedTypeInfo.render, IndexedTypeInfo.tokens, joinTokens,
        String.append_empty]
  | .Generic base arrows generics => by
      simp [IndexedTypeInfo.render, IndexedTypeInfo.tokens, joinTokens,
        joinTokens_append, punctTypeInfo_render_eq_tokens generics,
        String.append_assoc, String.append_empty]

/-- Rendering equals in-order token concatenation for TypeField. -/
theorem typeField_render_eq_tokens :
    ∀ t : TypeField, TypeField.render t = joinTokens (TypeField.tokens t)
  | .mk key colon value => by
      simp [TypeField.render, TypeField.tokens, joinTokens, joinTokens_append,
        typeFieldKey_render_eq_tokens key, typeInfo_render_eq_tokens value,
        String.append_assoc, String.append_empty]

/-- Rendering equals in-order token concatenation for TypeFieldKey. -/
theorem typeFieldKey_render_eq_tokens :
    ∀ t : TypeFieldKey,
      TypeFieldKey.render t = joinTokens (TypeFieldKey.tokens t)
  | .Name token => by
      simp [TypeFieldKey.render, TypeFieldKey.tokens, joinTokens,
        String.append_empty]
  | .IndexSignature brackets inner => by
      simp [TypeFieldKey.render, TypeFieldKey.tokens, joinTokens,
        joinTokens_append, typeInfo_render_eq_tokens inner,
        String.append_assoc, String.append_empty]

/-- Rendering equals in-order token concatenation for punctuated
TypeInfo sequences. -/
theorem punctTypeInfo_render_eq_tokens :
    ∀ t : PunctTypeInfo,
      PunctTypeInfo.render t = joinTokens (PunctTypeInfo.tokens t)
  | .nil => rfl
  | .cons item punctuation rest => by
      simp [PunctTypeInfo.render, PunctTypeInfo.tokens, joinTokens_append,
        typeInfo_render_eq_tokens item, punctTypeInfo_render_eq_tokens rest,
        joinTokens_optTokens, String.append_assoc]

/-- Rendering equals in-order token concatenation for punctuated
TypeField sequences. -/
theorem punctTypeField_render_eq_tokens :
    ∀ t : PunctTypeField,
      PunctTypeField.render t = joinTokens (PunctTypeField.tokens t)
  | .nil => rfl
  | .cons item punctuation rest => by
      simp [PunctTypeField.render, PunctTypeField.tokens, joinTokens_append,
        typeField_render_eq_tokens item, punctTypeField_render_eq_tokens rest,
        joinTokens_optTokens, String.append_assoc]
end

theorem punctTokensRender_eq_tokens :
    ∀ l : List (TokenReference × Option TokenReference),
      punctTokensRender l = joinTokens (punctTokensTokens l)
  | [] => rfl
  | (item, punctuation) :: rest => by
      simp [punctTokensRender, punctTokensTokens, joinTokens, joinTokens_append,
        punctTokensRender_eq_tokens rest, joinTokens_optTokens,
        String.append_assoc]

theorem genericDeclaration_render_eq_tokens (g : GenericDeclaration) :
    g.render = joinTokens g.tokens := by
  simp [GenericDeclaration.render, GenericDeclaration.tokens, joinTokens,
    joinTokens_append, punctTokensRender_eq_tokens, String.append_assoc,
    String.append_empty]

theorem typeAssertion_render_eq_tokens (t : TypeAssertion) :
    t.render = joinTokens t.tokens := by
  simp [TypeAssertion.render, TypeAssertion.tokens, joinTokens,
    typeInfo_render_eq_tokens, String.append_assoc]

theorem display_option_eq_tokens (g : Option GenericDeclaration) :
    display_option g = joinTokens (optGenericTokens g) := by
  cases g <;>
    simp [display_option, optGenericTokens, joinTokens,
      genericDeclaration_render_eq_tokens]

theorem typeDeclaration_render_eq_tokens (d : TypeDeclaration) :
    d.render = joinTokens d.tokens := by
  simp [TypeDeclaration.render, TypeDeclaration.tokens, joinTokens,
    joinTokens_append, display_option_eq_tokens, typeInfo_render_eq_tokens,
    String.append_assoc]

theorem typeSpecifier_render_eq_tokens (t : TypeSpecifier) :
    t.render = joinTokens t.tokens := by
  simp [TypeSpecifier.render, TypeSpecifier.tokens, joinTokens,
    typeInfo_render_eq_tokens, String.append_assoc]

theorem exportedTypeDeclaration_render_eq_tokens (e : ExportedTypeDeclaration) :
    e.render = joinTokens e.tokens := by
  simp [ExportedTypeDeclaration.render, ExportedTypeDeclaration.tokens,
    joinTokens, typeDeclaration_render_eq_tokens, String.append_assoc]

theorem compoundOp_render_eq_tokens (op : CompoundOp) :
    op.render = joinTokens op.tokens := by
  cases op <;>
    simp [CompoundOp.render, CompoundOp.tokens, joinTokens,
      String.append_empty]

theorem compoundAssignment_render_eq_tokens (c : CompoundAssignment) :
    c.render = joinTokens c.tokens := by
  simp [CompoundAssignment.render, CompoundAssignment.tokens, joinTokens_append,
    var_render_eq_tokens, expression_render_eq_tokens,
    compoundOp_render_eq_tokens, String.append_assoc]

mutual
/-- PartialEq is reflexive on TypeInfo. -/
theorem typeInfo_beq_refl : ∀ a : TypeInfo, TypeInfo.beq a a = true
  | .Array b t => by simp [TypeInfo.beq, typeInfo_beq_refl t]
  | .Basic t => by simp [TypeInfo.beq]
  | .Callback p a ar r => by
      simp [TypeInfo.beq, punctTypeInfo_beq_refl a, typeInfo_beq_refl r]
  | .Generic b a g => by simp [TypeInfo.beq, punctTypeInfo_beq_refl g]
  | .Intersection l a r => by
      simp [TypeInfo.beq, typeInfo_beq_refl l, typeInfo_beq_refl r]
  | .Module m p t => by simp [TypeInfo.beq, indexedTypeInfo_beq_refl t]
  | .Optional b q => by simp [TypeInfo.beq, typeInfo_beq_refl b]
  | .Table b f => by simp [TypeInfo.beq, punctTypeField_beq_refl f]
  | .Typeof t p i => by simp [TypeInfo.beq]
  | .Tuple p t => by simp [TypeInfo.beq, punctTypeInfo_beq_refl t]
  | .Union l p r => by
      simp [TypeInfo.beq, typeInfo_beq_refl l, typeInfo_beq_refl r]
  | .Variadic e t => by simp [TypeInfo.beq, typeInfo_beq_refl t]

/-- PartialEq is reflexive on IndexedTypeInfo. -/
theorem indexedTypeInfo_beq_refl :
    ∀ a : IndexedTypeInfo, IndexedTypeInfo.beq a a = true
  | .Basic t => by simp [IndexedTypeInfo.beq]
  | .Generic b a g => by
      simp [IndexedTypeInfo.beq, punctTypeInfo_beq_refl g]

/-- PartialEq is reflexive on TypeField. -/
theorem typeField_beq_refl : ∀ a : TypeField, TypeField.beq a a = true
  | .mk k c v => by
      simp [TypeField.beq, typeFieldKey_beq_refl k, typeInfo_beq_refl v]

/-- PartialEq is reflexive on TypeFieldKey. -/
theorem typeFieldKey_beq_refl : ∀ a : TypeFieldKey, TypeFieldKey.beq a a = true
  | .Name t => by simp [TypeFieldKey.beq]
  | .IndexSignature b i => by simp [TypeFieldKey.beq, typeInfo_beq_refl i]

/-- PartialEq is reflexive on punctuated TypeInfo sequences. -/
theorem punctTypeInfo_beq_refl :
    ∀ a : PunctTypeInfo, PunctTypeInfo.beq a a = true
  | .nil => by simp [PunctTypeInfo.beq]
  | .cons i p r => by
      simp [PunctTypeInfo.beq, typeInfo_beq_refl i, punctTypeInfo_beq_refl r]

/-- PartialEq is reflexive on punctuated TypeField sequences. -/
theorem punctTypeField_beq_refl :
    ∀ a : PunctTypeField, PunctTypeField.beq a a = true
  | .nil => by simp [PunctTypeField.beq]
  | .cons i p r => by
      simp [PunctTypeField.beq, typeField_beq_refl i, punctTypeField_beq_refl r]
end

mutual
/-- PartialEq soundness for TypeInfo: a successful comparison implies
structural identity of every field. -/
theorem typeInfo_eq_of_beq : ∀ a b : TypeInfo, TypeInfo.beq a b = true → a = b
  | .Array b1 t1, b, h => by
      cases b <;> simp_all [TypeInfo.beq]
      exact typeInfo_eq_of_beq _ _ h.2
  | .Basic t1, b, h => by
      cases b <;> simp_all [TypeInfo.beq]
  | .Callback p1 a1 ar1 r1, b, h => by
      cases b <;> simp_all [TypeInfo.beq]
      exact ⟨punctTypeInfo_eq_of_beq _ _ h.1.1.2, typeInfo_eq_of_beq _ _ h.2⟩
  | .Generic b1 a1 g1, b, h => by
      cases b <;> simp_all [TypeInfo.beq]
      exact punctTypeInfo_eq_of_beq _ _ h.2
  | .Intersection l1 a1 r1, b, h => by
      cases b <;> simp_all [TypeInfo.beq]
      exact ⟨typeInfo_eq_of_beq _ _ h.1.1, typeInfo_eq_of_beq _ _ h.2⟩
  | .Module m1 p1 t1, b, h => by
      cases b <;> simp_all [TypeInfo.beq]
      exact indexedTypeInfo_eq_of_beq _ _ h.2
  | .Optional b1 q1, b, h => by
      cases b <;> simp_all [TypeInfo.beq]
      exact typeInfo_eq_of_beq _ _ h.1
  | .Table b1 f1, b, h => by
      cases b <;> simp_all [TypeInfo.beq]
      exact punctTypeField_eq_of_beq _ _ h.2
  | .Typeof t1 p1 i1, b, h => by
      cases b <;> simp_all [TypeInfo.beq]
  | .Tuple p1 t1, b, h => by
      cases b <;> simp_all [TypeInfo.beq]
      exact punctTypeInfo_eq_of_beq _ _ h.2
  | .Union l1 p1 r1, b, h => by
      cases b <;> simp_all [TypeInfo.beq]
      exact ⟨typeInfo_eq_of_beq _ _ h.1.1, typeInfo_eq_of_beq _ _ h.2⟩
  | .Variadic e1 t1, b, h => by
      cases b <;> simp_all [TypeInfo.beq]
      exact typeInfo_eq_of_beq _ _ h.2

/-- PartialEq soundness for IndexedTypeInfo. -/
theorem indexedTypeInfo_eq_of_beq :
    ∀ a b : IndexedTypeInfo, IndexedTypeInfo.beq a b = true → a = b
  | .Basic t1, b, h => by
      cases b <;> simp_all [IndexedTypeInfo.beq]
  | .Generic b1 a1 g1, b, h => by
      cases b <;> simp_all [IndexedTypeInfo.beq]
      exact punctTypeInfo_eq_of_beq _ _ h.2

/-- PartialEq soundness for TypeField. -/
theorem typeField_eq_of_beq :
    ∀ a b : TypeField, TypeField.beq a b = true → a = b
  | .mk k1 c1 v1, b, h => by
      cases b; simp_all [TypeField.beq]
      exact ⟨typeFieldKey_eq_of_beq _ _ h.1.1, typeInfo_eq_of_beq _ _ h.2⟩

/-- PartialEq soundness for TypeFieldKey. -/
theorem typeFieldKey_eq_of_beq :
    ∀ a b : TypeFieldKey, TypeFieldKey.beq a b = true → a = b
  | .Name t1, b, h => by
      cases b <;> simp_all [TypeFieldKey.beq]
  | .IndexSignature b1 i1, b, h => by
      cases b <;> simp_all [TypeFieldKey.beq]
      exact typeInfo_eq_of_beq _ _ h.2

/-- PartialEq soundness for punctuated TypeInfo sequences. -/
theorem punctTypeInfo_eq_of_beq :
    ∀ a b : PunctTypeInfo, PunctTypeInfo.beq a b = true → a = b
  | .nil, b, h => by
      cases b <;> simp_all [PunctTypeInfo.beq]
  | .cons i1 p1 r1, b, h => by
      cases b <;> simp_all [PunctTypeInfo.beq]
      exact ⟨typeInfo_eq_of_beq _ _ h.1.1, punctTypeInfo_eq_of_beq _ _ h.2⟩

/-- PartialEq soundness for punctuated TypeField sequences. -/
theorem punctTypeField_eq_of_beq :
    ∀ a b : PunctTypeField, PunctTypeField.beq a b = true → a = b
  | .nil, b, h => by
      cases b <;> simp_all [PunctTypeField.beq]
  | .cons i1 p1 r1, b, h => by
      cases b <;> simp_all [PunctTypeField.beq]
      exact ⟨typeField_eq_of_beq _ _ h.1.1, punctTypeField_eq_of_beq _ _ h.2⟩
end

/-- PartialEq on TypeInfo coincides with structural equality of every
field, token trivia included. -/
theorem typeInfo_beq_iff (a b : TypeInfo) : TypeInfo.beq a b = true ↔ a = b :=
  ⟨typeInfo_eq_of_beq a b, fun h => h ▸ typeInfo_beq_refl a⟩

/-- PartialEq on IndexedTypeInfo coincides with structural equality. -/
theorem indexedTypeInfo_beq_iff (a b : IndexedTypeInfo) :
    IndexedTypeInfo.beq a b = true ↔ a = b :=
  ⟨indexedTypeInfo_eq_of_beq a b, fun h => h ▸ indexedTypeInfo_beq_refl a⟩

/-- PartialEq on TypeField coincides with structural equality. -/
theorem typeField_beq_iff (a b : TypeField) :
    TypeField.beq a b = true ↔ a = b :=
  ⟨typeField_eq_of_beq a b, fun h => h ▸ typeField_beq_refl a⟩

/-- PartialEq on TypeFieldKey coincides with structural equality. -/
theorem typeFieldKey_beq_iff (a b : TypeFieldKey) :
    TypeFieldKey.beq a b = true ↔ a = b :=
  ⟨typeFieldKey_eq_of_beq a b, fun h => h ▸ typeFieldKey_beq_refl a⟩

/-- PartialEq on punctuated TypeInfo sequences coincides with
structural equality. -/
theorem punctTypeInfo_beq_iff (a b : PunctTypeInfo) :
    PunctTypeInfo.beq a b = true ↔ a = b :=
  ⟨punctTypeInfo_eq_of_beq a b, fun h => h ▸ punctTypeInfo_beq_refl a⟩

/-- PartialEq on punctuated TypeField sequences coincides with
structural equality. -/
theorem punctTypeField_beq_iff (a b : PunctTypeField) :
    PunctTypeField.beq a b = true ↔ a = b :=
  ⟨punctTypeField_eq_of_beq a b, fun h => h ▸ punctTypeField_beq_refl a⟩

/-- PartialEq on TypeAssertion coincides with structural equality. -/
theorem typeAssertion_beq_iff (a b : TypeAssertion) :
    TypeAssertion.beq a b = true ↔ a = b := by
  cases a; cases b
  simp [TypeAssertion.beq, typeInfo_beq_iff]

/-- PartialEq on GenericDeclaration coincides with structural equality. -/
theorem genericDeclaration_beq_iff (a b : GenericDeclaration) :
    GenericDeclaration.beq a b = true ↔ a = b := by
  cases a; cases b
  simp [GenericDeclaration.beq]

/-- PartialEq on the optional generics child coincides with structural
equality. -/
theorem optGenericBeq_iff (a b : Option GenericDeclaration) :
    optGenericBeq a b = true ↔ a = b := by
  cases a <;> cases b <;> simp [optGenericBeq, genericDeclaration_beq_iff]

/-- PartialEq on TypeDeclaration coincides with structural equality. -/
theorem typeDeclaration_beq_iff (a b : TypeDeclaration) :
    TypeDeclaration.beq a b = true ↔ a = b := by
  cases a; cases b
  simp [TypeDeclaration.beq, optGenericBeq_iff, typeInfo_beq_iff, and_assoc]

/-- PartialEq on TypeSpecifier coincides with structural equality. -/
theorem typeSpecifier_beq_iff (a b : TypeSpecifier) :
    TypeSpecifier.beq a b = true ↔ a = b := by
  cases a; cases b
  simp [TypeSpecifier.beq, typeInfo_beq_iff]

/-- PartialEq on ExportedTypeDeclaration coincides with structural
equality. -/
theorem exportedTypeDeclaration_beq_iff (a b : ExportedTypeDeclaration) :
    ExportedTypeDeclaration.beq a b = true ↔ a = b := by
  cases a; cases b
  simp [ExportedTypeDeclaration.beq, typeDeclaration_beq_iff]

/-- PartialEq on CompoundOp coincides with structural equality. -/
theorem compoundOp_beq_iff (a b : CompoundOp) :
    CompoundOp.beq a b = true ↔ a = b := by
  cases a <;> cases b <;> simp [CompoundOp.beq]

/-- PartialEq on CompoundAssignment coincides with structural equality. -/
theorem compoundAssignment_beq_iff (a b : CompoundAssignment) :
    CompoundAssignment.beq a b = true ↔ a = b := by
  cases a; cases b
  simp [CompoundAssignment.beq, compoundOp_beq_iff, and_assoc]

/-- A bare identifier token with no trivia. -/
def strToken (s : String) : TokenReference :=
  ⟨[], ⟨.Identifier s⟩, []⟩

/-- A pipe token carrying one space of leading and one space of
trailing trivia, as parsed from "string | number". -/
def pipeSpaced : TokenReference :=
  ⟨[⟨.Whitespace " "⟩], ⟨.Symbol "|"⟩, [⟨.Whitespace " "⟩]⟩

/-- A pipe token with no trivia, as parsed from "string|number". -/
def pipeTight : TokenReference :=
  ⟨[], ⟨.Symbol "|"⟩, []⟩

/-- The tree parsed from "string | number": a Union of two Basic types
whose pipe token carries the surrounding spaces as trivia. -/
def unionSpaced : TypeInfo :=
  .Union (.Basic (strToken "string")) pipeSpaced (.Basic (strToken "number"))

/-- The tree parsed from "string|number". -/
def unionTight : TypeInfo :=
  .Union (.Basic (strToken "string")) pipeTight (.Basic (strToken "number"))

/-- The two example union trees differ (only) in the pipe token's
trivia, so they are not equal. -/
theorem unionSpaced_ne_unionTight : unionSpaced ≠ unionTight := by
  simp [unionSpaced, unionTight, pipeSpaced, pipeTight]

/-- PartialEq distinguishes the two example union trees. -/
theorem unionSpaced_beq_unionTight_false :
    TypeInfo.beq unionSpaced unionTight = false := by
  cases hb : TypeInfo.beq unionSpaced unionTight with
  | false => rfl
  | true => exact absurd (typeInfo_eq_of_beq _ _ hb) unionSpaced_ne_unionTight

/-- Modelled from the spec: the lexer and parser are external to this
layer. A tree "produced by parsing source text S and not subsequently
modified" is one whose in-order token sequence carries exactly the
bytes of S: the concatenation over all tokens of leading trivia, text,
and trailing trivia equals S (the token layer is lossless and the
parser consumes the token stream in order). -/
def producedByParsing (toks : List TokenReference) (S : String) : Prop :=
  joinTokens toks = S

/-- C1: for any tree produced by parsing source text S and not
subsequently modified, rendering the tree (concatenating every token's
leading trivia, text, and trailing trivia over all nodes) reproduces S
byte-for-byte — for every node kind of this layer. -/
theorem claim_C1_round_trip :
    (∀ (t : TypeInfo) (S : String),
        producedByParsing t.tokens S → t.render = S)
  ∧ (∀ (t : IndexedTypeInfo) (S : String),
        producedByParsing t.tokens S → t.render = S)
  ∧ (∀ (t : TypeField) (S : String),
        producedByParsing t.tokens S → t.render = S)
  ∧ (∀ (t : TypeFieldKey) (S : String),
        producedByParsing t.tokens S → t.render = S)
  ∧ (∀ (t : TypeAssertion) (S : String),
        producedByParsing t.tokens S → t.render = S)
  ∧ (∀ (t : TypeDeclaration) (S : String),
        producedByParsing t.tokens S → t.render = S)
  ∧ (∀ (t : GenericDeclaration) (S : String),
        producedByParsing t.tokens S → t.render = S)
  ∧ (∀ (t : TypeSpecifier) (S : String),
        producedByParsing t.tokens S → t.render = S)
  ∧ (∀ (t : ExportedTypeDeclaration) (S : String),
        producedByParsing t.tokens S → t.render = S)
  ∧ (∀ (t : CompoundAssignment) (S : String),
        producedByParsing t.tokens S → t.render = S) := by
  refine ⟨?_, ?_, ?_, ?_, ?_, ?_, ?_, ?_, ?_, ?_⟩ <;> intro t S h <;>
    rw [producedByParsing] at h <;> rw [← h]
  · exact typeInfo_render_eq_tokens t
  · exact indexedTypeInfo_render_eq_tokens t
  · exact typeField_render_eq_tokens t
  · exact typeFieldKey_render_eq_tokens t
  · exact typeAssertion_render_eq_tokens t
  · exact typeDeclaration_render_eq_tokens t
  · exact genericDeclaration_render_eq_tokens t
  · exact typeSpecifier_render_eq_tokens t
  · exact exportedTypeDeclaration_render_eq_tokens t
  · exact compoundAssignment_render_eq_tokens t

/-- Witness for C1: the tree parsed from "string | number" (pipe token
carrying the surrounding spaces as trivia) satisfies the parse relation
and renders back to exactly that string. -/
theorem claim_C1_round_trip_witness :
    producedByParsing (TypeInfo.tokens unionSpaced) "string | number"
      ∧ TypeInfo.render unionSpaced = "string | number" :=
  ⟨rfl, claim_C1_round_trip.1 unionSpaced "string | number" rfl⟩

/-- C2: every value of IndexedTypeInfo is either Basic or Generic, so
the inner indexed type of any constructible Module node can never be an
Optional, Union, Intersection, Array, Callback, Table, Typeof, Tuple,
or Variadic type: those shapes are unrepresentable in that position. -/
theorem claim_C2_indexed_restriction :
    ∀ i : IndexedTypeInfo,
      (∃ token, i = IndexedTypeInfo.Basic token) ∨
        (∃ base arrows generics,
          i = IndexedTypeInfo.Generic base arrows generics) := by
  intro i
  cases i with
  | Basic token => exact Or.inl ⟨token, rfl⟩
  | Generic base arrows generics => exact Or.inr ⟨base, arrows, generics, rfl⟩

/-- C3: for every node kind of this layer, every with-field builder
method and every replacement value, the corresponding accessor of the
updated node returns exactly the replacement and every other field —
tokens and their trivia included — is unchanged. -/
theorem claim_C3_builder_locality :
    (∀ (n : TypeField) (v : TypeFieldKey),
        (n.with_key v).key = v ∧ (n.with_key v).colon_token = n.colon_token
          ∧ (n.with_key v).value = n.value)
  ∧ (∀ (n : TypeField) (v : TokenReference),
        (n.with_colon_token v).colon_token = v ∧ (n.with_colon_token v).key = n.key
          ∧ (n.with_colon_token v).value = n.value)
  ∧ (∀ (n : TypeField) (v : TypeInfo),
        (n.with_value v).value = v ∧ (n.with_value v).key = n.key
          ∧ (n.with_value v).colon_token = n.colon_token)
  ∧ (∀ (n : TypeAssertion) (v : TokenReference),
        (n.with_assertion_op v).assertion_op = v
          ∧ (n.with_assertion_op v).cast_to = n.cast_to)
  ∧ (∀ (n : TypeAssertion) (v : TypeInfo),
        (n.with_cast_to v).cast_to = v
          ∧ (n.with_cast_to v).assertion_op = n.assertion_op)
  ∧ (∀ (n : TypeDeclaration) (v : TokenReference),
        (n.with_type_token v).type_token = v
          ∧ (n.with_type_token v).type_name = n.type_name
          ∧ (n.with_type_token v).generics = n.generics
          ∧ (n.with_type_token v).equal_token = n.equal_token
          ∧ (n.with_type_token v).type_definition = n.type_definition)
  ∧ (∀ (n : TypeDeclaration) (v : TokenReference),
        (n.with_type_name v).type_name = v
          ∧ (n.with_type_name v).type_token = n.type_token
          ∧ (n.with_type_name v).generics = n.generics
          ∧ (n.with_type_name v).equal_token = n.equal_token
          ∧ (n.with_type_name v).type_definition = n.type_definition)
  ∧ (∀ (n : TypeDeclaration) (v : Option GenericDeclaration),
        (n.with_generics v).generics = v
          ∧ (n.with_generics v).type_token = n.type_token
          ∧ (n.with_generics v).type_name = n.type_name
          ∧ (n.with_generics v).equal_token = n.equal_token
          ∧ (n.with_generics v).type_definition = n.type_definition)
  ∧ (∀ (n : TypeDeclaration) (v : TokenReference),
        (n.with_equal_token v).equal_token = v
          ∧ (n.with_equal_token v).type_token = n.type_token
          ∧ (n.with_equal_token v).type_name = n.type_name
          ∧ (n.with_equal_token v).generics = n.generics
          ∧ (n.with_equal_token v).type_definition = n.type_definition)
  ∧ (∀ (n : TypeDeclaration) (v : TypeInfo),
        (n.with_type_definition v).type_definition = v
          ∧ (n.with_type_definition v).type_token = n.type_token
          ∧ (n.with_type_definition v).type_name = n.type_name
          ∧ (n.with_type_definition v).generics = n.generics
          ∧ (n.with_type_definition v).equal_token = n.equal_token)
  ∧ (∀ (n : GenericDeclaration) (v : ContainedSpan),
        (n.with_arrows v).arrows = v ∧ (n.with_arrows v).generics = n.generics)
  ∧ (∀ (n : GenericDeclaration)
        (v : List (TokenReference × Option TokenReference)),
        (n.with_generics v).generics = v ∧ (n.with_generics v).arrows = n.arrows)
  ∧ (∀ (n : TypeSpecifier) (v : TokenReference),
        (n.with_punctuation v).punctuation = v
          ∧ (n.with_punctuation v).type_info = n.type_info)
  ∧ (∀ (n : TypeSpecifier) (v : TypeInfo),
        (n.with_type_info v).type_info = v
          ∧ (n.with_type_info v).punctuation = n.punctuation)
  ∧ (∀ (n : ExportedTypeDeclaration) (v : TokenReference),
        (n.with_export_token v).export_token = v
          ∧ (n.with_export_token v).type_declaration = n.type_declaration)
  ∧ (∀ (n : ExportedTypeDeclaration) (v : TypeDeclaration),
        (n.with_type_declaration v).type_declaration = v
          ∧ (n.with_type_declaration v).export_token = n.export_token)
  ∧ (∀ (n : CompoundAssignment) (v : Var),
        (n.with_lhs v).lhs = v
          ∧ (n.with_lhs v).compound_operator = n.compound_operator
          ∧ (n.with_lhs v).rhs = n.rhs)
  ∧ (∀ (n : CompoundAssignment) (v : CompoundOp),
        (n.with_compound_operator v).compound_operator = v
          ∧ (n.with_compound_operator v).lhs = n.lhs
          ∧ (n.with_compound_operator v).rhs = n.rhs)
  ∧ (∀ (n : CompoundAssignment) (v : Expression),
        (n.with_rhs v).rhs = v ∧ (n.with_rhs v).lhs = n.lhs
          ∧ (n.with_rhs v).compound_operator = n.compound_operator) := by
  refine ⟨?_, ?_, ?_, ?_, ?_, ?_, ?_, ?_, ?_, ?_, ?_, ?_, ?_, ?_, ?_, ?_,
    ?_, ?_, ?_⟩ <;> intro n v
  · cases n; exact ⟨rfl, rfl, rfl⟩
  · cases n; exact ⟨rfl, rfl, rfl⟩
  · cases n; exact ⟨rfl, rfl, rfl⟩
  · exact ⟨rfl, rfl⟩
  · exact ⟨rfl, rfl⟩
  · exact ⟨rfl, rfl, rfl, rfl, rfl⟩
  · exact ⟨rfl, rfl, rfl, rfl, rfl⟩
  · exact ⟨rfl, rfl, rfl, rfl, rfl⟩
  · exact ⟨rfl, rfl, rfl, rfl, rfl⟩
  · exact ⟨rfl, rfl, rfl, rfl, rfl⟩
  · exact ⟨rfl, rfl⟩
  · exact ⟨rfl, rfl⟩
  · exact ⟨rfl, rfl⟩
  · exact ⟨rfl, rfl⟩
  · exact ⟨rfl, rfl⟩
  · exact ⟨rfl, rfl⟩
  · exact ⟨rfl, rfl, rfl⟩
  · exact ⟨rfl, rfl, rfl⟩
  · exact ⟨rfl, rfl, rfl⟩

/-- C4: PartialEq on every node kind of this layer holds exactly when
the variant tags match and every field — every token's leading and
trailing trivia included — is equal; concretely, the trees for
"string | number" and "string|number" render to those strings and
compare unequal. -/
theorem claim_C4_structural_equality :
    (∀ a b : TypeInfo, TypeInfo.beq a b = true ↔ a = b)
  ∧ (∀ a b : IndexedTypeInfo, IndexedTypeInfo.beq a b = true ↔ a = b)
  ∧ (∀ a b : TypeField, TypeField.beq a b = true ↔ a = b)
  ∧ (∀ a b : TypeFieldKey, TypeFieldKey.beq a b = true ↔ a = b)
  ∧ (∀ a b : TypeAssertion, TypeAssertion.beq a b = true ↔ a = b)
  ∧ (∀ a b : TypeDeclaration, TypeDeclaration.beq a b = true ↔ a = b)
  ∧ (∀ a b : GenericDeclaration, GenericDeclaration.beq a b = true ↔ a = b)
  ∧ (∀ a b : TypeSpecifier, TypeSpecifier.beq a b = true ↔ a = b)
  ∧ (∀ a b : ExportedTypeDeclaration,
        ExportedTypeDeclaration.beq a b = true ↔ a = b)
  ∧ (∀ a b : CompoundOp, CompoundOp.beq a b = true ↔ a = b)
  ∧ (∀ a b : CompoundAssignment, CompoundAssignment.beq a b = true ↔ a = b)
  ∧ TypeInfo.render unionSpaced = "string | number"
  ∧ TypeInfo.render unionTight = "string|number"
  ∧ TypeInfo.beq unionSpaced unionTight = false :=
  ⟨typeInfo_beq_iff, indexedTypeInfo_beq_iff, typeField_beq_iff,
    typeFieldKey_beq_iff, typeAssertion_beq_iff, typeDeclaration_beq_iff,
    genericDeclaration_beq_iff, typeSpecifier_beq_iff,
    exportedTypeDeclaration_beq_iff, compoundOp_beq_iff,
    compoundAssignment_beq_iff, rfl, rfl, unionSpaced_beq_unionTight_false⟩

/-- C5: rendering a Callback node is exactly the concatenation, in this
order, of the open parenthesis, the punctuated argument list, the close
parenthesis, the arrow token, and the return type. -/
theorem claim_C5_callback_render_order :
    ∀ (parentheses : ContainedSpan) (arguments : PunctTypeInfo)
      (arrow : TokenReference) (return_type : TypeInfo),
      TypeInfo.render (.Callback parentheses arguments arrow return_type)
        = parentheses.tokens.1.render ++ PunctTypeInfo.render arguments
          ++ parentheses.tokens.2.render ++ arrow.render
          ++ TypeInfo.render return_type :=
  fun _ _ _ _ => rfl

/-- C6: every fixed literal the zero-argument/default constructors
synthesize a token from — ": " (TypeField::new, TypeSpecifier::new),
"::" (TypeAssertion::new), "type " and " = " (TypeDeclaration::new),
"<" and ">" (GenericDeclaration::new) — is a valid token under the
token layer's lexical rules, so the unwrap of TokenReference::symbol in
each constructor never panics. -/
theorem claim_C6_constructors_never_fail :
    (TokenReference.symbol ": ").isSome = true
  ∧ (TokenReference.symbol "::").isSome = true
  ∧ (TokenReference.symbol "type ").isSome = true
  ∧ (TokenReference.symbol " = ").isSome = true
  ∧ (TokenReference.symbol "<").isSome = true
  ∧ (TokenReference.symbol ">").isSome = true :=
  ⟨rfl, rfl, rfl, rfl, rfl, rfl⟩

/-- C7: TypeField::new(k, v) returns a field whose key is k, whose
value is v, and whose colon token is the canonical default ": ": a
colon with no leading trivia and a single space of trailing trivia. -/
theorem claim_C7_type_field_new :
    ∀ (key : TypeFieldKey) (value : TypeInfo),
      (TypeField.new key value).key = key
        ∧ (TypeField.new key value).value = value
        ∧ (TypeField.new key value).colon_token
            = ⟨[], ⟨.Symbol ":"⟩, [⟨.Whitespace " "⟩]⟩ :=
  fun _ _ => ⟨rfl, rfl, rfl⟩

/-- C8: a CompoundAssignment renders as exactly the concatenation of
lhs, compound operator and rhs (each with its own trivia), and the node
is nothing but that flat triple: it is determined by the three
accessors. -/
theorem claim_C8_compound_assignment_render :
    ∀ c : CompoundAssignment,
      c.render = c.lhs.render ++ c.compound_operator.render ++ c.rhs.render
        ∧ c = CompoundAssignment.new c.lhs c.compound_operator c.rhs :=
  fun _ => ⟨rfl, rfl⟩

/-- A generic parameter name token "T" with no trivia. -/
def genT : TokenReference := ⟨[], ⟨.Identifier "T"⟩, []⟩

/-- A generic parameter name token "U" with no trivia. -/
def genU : TokenReference := ⟨[], ⟨.Identifier "U"⟩, []⟩

/-- A comma separator token with a single trailing space of trivia. -/
def commaSpace : TokenReference := ⟨[], ⟨.Symbol ","⟩, [⟨.Whitespace " "⟩]⟩

/-- C9: GenericDeclaration::new() given the two generic parameter name
tokens T and U (with the conventional comma-space separator) via
with_generics renders as the string "<T, U>". -/
theorem claim_C9_generic_declaration_render :
    (GenericDeclaration.new.with_generics
        [(genT, some commaSpace), (genU, none)]).render = "<T, U>" :=
  rfl

/-- C10: ExportedTypeDeclaration::new(d) synthesizes the export token
as an identifier token with text "export", no leading trivia and
exactly one trailing space, renders as "export " followed by the
rendering of d, and its type_declaration accessor returns exactly d. -/
theorem claim_C10_exported_type_declaration_new :
    ∀ d : TypeDeclaration,
      (ExportedTypeDeclaration.new d).export_token
          = ⟨[], ⟨.Identifier "export"⟩, [⟨.Whitespace " "⟩]⟩
        ∧ (ExportedTypeDeclaration.new d).render = "export " ++ d.render
        ∧ (ExportedTypeDeclaration.new d).type_declaration = d :=
  fun _ => ⟨rfl, rfl, rfl⟩
